import Mathlib

/-!
Shallow embedding of the SpeakWise call-session orchestration and
audio-routing layer, and proofs about it.

The embedding covers:
  * `RootTelephony.AudioRouter` — `src/integrations/telephony/audio_router.py`
    (one shared `input_queue` for all calls, per-call in/out byte buffers,
    a single processor thread),
  * `SrcTelephony.AudioRouter` — `src/src/integrations/telephony/audio_router.py`
    (per-call inbound/outbound `queue.Queue` pair and a per-call worker thread),
  * `Handler.CallHandler` — `src/src/integrations/telephony/call_handler.py`
    (the call-session registry).

Conventions of the embedding:
  * raw audio bytes are `List Nat`;
  * wall-clock instants are `Nat` seconds and are passed explicitly where the
    source calls `datetime.now()` / `time.time()` / the event-loop clock;
  * Python dicts keyed by `call_id` are association lists with `alookup`,
    `aset` (assignment) and `aerase` (`del`);
  * `logger.warning` / `logger.error` call sites append the message to a
    `warnings` / `errors` list in the state when a claim refers to logging;
    `logger.info` / `logger.debug` are not modelled;
  * Python object identity of freshly allocated `queue.Queue()` objects and
    `threading.Thread` objects is modelled by numeric identities drawn from a
    monotone allocator `next_id` in the router state;
  * a fallible external call (`requests`, speech pipeline) is a function
    returning `Except String _`; a caught `except` block is a `match` on that
    result;
  * temp-file plumbing around the speech pipeline (write chunk to wav, call
    the processor on the path, read the reply file) is elided: the pipeline
    functions take the chunk and return the reply bytes directly.
-/

namespace SpeakWise

/-- Raw audio bytes. -/
abbrev Chunk := List Nat

/-- Reading `d[k]` on a Python dict modelled as an association list. -/
def alookup (k : String) : List (String × α) → Option α
  | [] => none
  | (k', v) :: rest => if k = k' then some v else alookup k rest

/-- Assignment `d[k] = v` on a Python dict: replace in place, or append a new entry. -/
def aset (k : String) (v : α) : List (String × α) → List (String × α)
  | [] => [(k, v)]
  | (k', v') :: rest => if k = k' then (k, v) :: rest else (k', v') :: aset k v rest

/-- Deletion `del d[k]` on a Python dict. -/
def aerase (k : String) : List (String × α) → List (String × α)
  | [] => []
  | (k', v) :: rest => if k = k' then aerase k rest else (k', v) :: aerase k rest

theorem alookup_aset (k c : String) (v : α) (l : List (String × α)) :
    alookup c (aset k v l) = if c = k then some v else alookup c l := by
  induction l with
  | nil => simp [aset, alookup]
  | cons hd tl ih =>
    obtain ⟨k', v'⟩ := hd
    by_cases hk : k = k'
    · subst hk
      by_cases hc : c = k <;> simp [aset, alookup, hc]
    · by_cases hc : c = k'
      · subst hc
        simp [aset, alookup, hk, Ne.symm hk]
      · simp [aset, alookup, hk, hc, ih]

theorem alookup_aerase (k c : String) (l : List (String × α)) :
    alookup c (aerase k l) = if c = k then none else alookup c l := by
  induction l with
  | nil => simp [aerase, alookup]
  | cons hd tl ih =>
    obtain ⟨k', v'⟩ := hd
    by_cases hk : k = k'
    · subst hk
      by_cases hc : c = k
      · subst hc
        simp [aerase, alookup, ih]
      · simp [aerase, alookup, hc, ih]
    · by_cases hc : c = k'
      · subst hc
        simp [aerase, alookup, hk, Ne.symm hk, ih]
      · simp [aerase, alookup, hk, hc, ih]

end SpeakWise

namespace SpeakWise.RootTelephony

/-!
Model of `src/integrations/telephony/audio_router.py`: the `AudioRouter`
whose method set (`process_incoming_audio`, `get_outgoing_audio`,
`queue_outgoing_audio`) matches what `CallHandler` invokes.  Its
`__init__` allocates ONE `input_queue` and ONE `output_queue` shared by
every call; `register_call` gives each call only a pair of byte buffers.
-/

/-- The external speech pipeline as consumed by `_process_audio_stream`:
each stage may raise (`Except.error`); `synthesize` may also return `None`
(`Except.ok none`). -/
structure SpeechProcessor where
  transcribe : Chunk → Except String String
  get_response : String → String → Except String String
  synthesize : String → Except String (Option Chunk)

/-- Per-call entry of `self.active_calls` created by `register_call`:
two `io.BytesIO` buffers, the activity timestamp, the active flag. -/
structure CallInfo where
  input_buffer : Chunk
  output_buffer : Chunk
  last_activity : Nat
  is_active : Bool
deriving Repr, DecidableEq

/-- State of the shared-queue `AudioRouter`.  `input_queue` is the single
`queue.Queue` allocated in `__init__` and shared by every call; its
elements are the `(call_id, audio_data)` pairs `process_incoming_audio`
puts.  `should_run` / `processor_running` model the single processor
thread serving all calls. -/
structure AudioRouter where
  speech_processor : Option SpeechProcessor
  input_queue : List (String × Chunk)
  output_queue : List Chunk
  active_calls : List (String × CallInfo)
  should_run : Bool
  processor_running : Bool
  warnings : List String
  errors : List String

/-- Constructor `AudioRouter.__init__(speech_processor=None)`. -/
def init (sp : Option SpeechProcessor) : AudioRouter :=
  { speech_processor := sp
    input_queue := []
    output_queue := []
    active_calls := []
    should_run := false
    processor_running := false
    warnings := []
    errors := [] }

/-- Method `register_call`: unconditionally assigns a fresh entry (fresh empty
buffers, `last_activity` = event-loop time, `is_active` = True). -/
def register_call (now : Nat) (call_id : String) (r : AudioRouter) : AudioRouter :=
  let entry : CallInfo :=
    { input_buffer := [], output_buffer := [], last_activity := now, is_active := true }
  { r with active_calls := aset call_id entry r.active_calls }

/-- Method `unregister_call`: if present, flips `is_active` off and deletes the
entry; unknown `call_id` is a silent no-op. -/
def unregister_call (call_id : String) (r : AudioRouter) : AudioRouter :=
  match alookup call_id r.active_calls with
  | none => r
  | some _ => { r with active_calls := aerase call_id r.active_calls }

/-- Method `process_incoming_audio`: unknown call → warning, drop.  Otherwise
update `last_activity` when the asyncio loop is running, put
`(call_id, audio_data)` on the SHARED `input_queue`, and start the single
processor thread if needed. -/
def process_incoming_audio (now : Nat) (loop_running : Bool) (call_id : String)
    (audio_data : Chunk) (r : AudioRouter) : AudioRouter :=
  match alookup call_id r.active_calls with
  | none =>
    { r with warnings := r.warnings ++ ["Received audio for unknown call: " ++ call_id] }
  | some info =>
    let r1 :=
      if loop_running then
        let info' := { info with last_activity := now }
        { r with active_calls := aset call_id info' r.active_calls }
      else r
    let r2 := { r1 with input_queue := r1.input_queue ++ [(call_id, audio_data)] }
    if !r2.should_run && r2.speech_processor.isSome then
      { r2 with should_run := true, processor_running := true }
    else r2

/-- Method `get_outgoing_audio`: unknown call → warning and `None`; non-empty
output buffer → return its whole contents and replace the buffer with a
fresh empty one; empty buffer → `None`. -/
def get_outgoing_audio (call_id : String) (r : AudioRouter) :
    Option Chunk × AudioRouter :=
  match alookup call_id r.active_calls with
  | none =>
    (none, { r with warnings := r.warnings ++ ["Requested audio for unknown call: " ++ call_id] })
  | some info =>
    if info.output_buffer ≠ [] then
      let info' := { info with output_buffer := [] }
      (some info.output_buffer,
       { r with active_calls := aset call_id info' r.active_calls })
    else
      (none, r)

/-- Method `queue_outgoing_audio`: unknown call → warning, drop; otherwise append
the bytes to the call's output buffer. -/
def queue_outgoing_audio (call_id : String) (audio_data : Chunk)
    (r : AudioRouter) : AudioRouter :=
  match alookup call_id r.active_calls with
  | none =>
    { r with warnings := r.warnings ++ ["Queued audio for unknown call: " ++ call_id] }
  | some info =>
    let info' := { info with output_buffer := info.output_buffer ++ audio_data }
    { r with active_calls := aset call_id info' r.active_calls }

end SpeakWise.RootTelephony

namespace SpeakWise.SrcTelephony

/-!
Model of `src/src/integrations/telephony/audio_router.py`: the
`AudioRouter` in which `register_call` allocates a FRESH pair of
`queue.Queue`s and a FRESH worker thread for each call.  Object identity
of the freshly constructed queues and thread is modelled by numeric ids
drawn from the allocator `next_id`.
-/

open SpeakWise

/-- The two `queue.Queue()`s built in `register_call`, with their
identities.  `inbound` / `outbound` hold chunks in FIFO order. -/
structure QueuePair where
  inbound_id : Nat
  outbound_id : Nat
  inbound : List Chunk
  outbound : List Chunk
deriving Repr, DecidableEq

/-- Entry of `self.active_streams`: the worker `threading.Thread` bound to
this call (by identity), the `active` flag and `last_activity`. -/
structure StreamInfo where
  thread_id : Nat
  active : Bool
  last_activity : Nat
deriving Repr, DecidableEq

/-- Lookup `self.config.get("telephony", "audio_timeout", 30)`: the configured
idle timeout, defaulting to 30 seconds when the key is absent. -/
structure Config where
  audio_timeout : Option Nat
deriving Repr, DecidableEq

/-- Evaluation of `config.get` with the call site's default of 30. -/
def Config.timeout_value (c : Config) : Nat := c.audio_timeout.getD 30

/-- The speech pipeline as consumed by `_process_audio_stream`:
`process_audio` transcribes a chunk (an empty string is a falsy
`response_text`), `text_to_speech` synthesizes the reply bytes; either
stage may raise. -/
structure FileSpeech where
  process_audio : Chunk → Except String String
  text_to_speech : String → Except String Chunk

/-- State of the per-call `AudioRouter`. -/
structure AudioRouter where
  active_streams : List (String × StreamInfo)
  audio_queues : List (String × QueuePair)
  next_id : Nat
  warnings : List String
  errors : List String

/-- Constructor `AudioRouter.__init__`. -/
def init : AudioRouter :=
  { active_streams := [], audio_queues := [], next_id := 0, warnings := [], errors := [] }

/-- Method `register_call`: already-registered call → warning, no change.
Otherwise allocate a fresh inbound queue, a fresh outbound queue and a
fresh worker thread for exactly this `call_id`, and start the worker. -/
def register_call (now : Nat) (call_id : String) (r : AudioRouter) : AudioRouter :=
  match alookup call_id r.active_streams with
  | some _ =>
    { r with warnings :=
        r.warnings ++ ["Call " ++ call_id ++ " already registered for audio streaming"] }
  | none =>
    let qp : QueuePair :=
      { inbound_id := r.next_id, outbound_id := r.next_id + 1, inbound := [], outbound := [] }
    let si : StreamInfo :=
      { thread_id := r.next_id + 2, active := true, last_activity := now }
    { r with
      audio_queues := aset call_id qp r.audio_queues
      active_streams := aset call_id si r.active_streams
      next_id := r.next_id + 3 }

/-- Method `unregister_call`: unknown call → warning, no-op.  Otherwise set the
`active` flag to False, join the worker, and delete both the stream entry
and the queue pair. -/
def unregister_call (call_id : String) (r : AudioRouter) : AudioRouter :=
  match alookup call_id r.active_streams with
  | none =>
    { r with warnings :=
        r.warnings ++ ["Call " ++ call_id ++ " not registered for audio streaming"] }
  | some _ =>
    { r with
      active_streams := aerase call_id r.active_streams
      audio_queues := aerase call_id r.audio_queues }

/-- Method `route_audio`: no queues for this call → warning and `None`.
Otherwise put the chunk on THIS call's inbound queue, refresh
`last_activity`, and take a reply from THIS call's outbound queue if one
is ready (`get(block=False)`). -/
def route_audio (now : Nat) (call_id : String) (audio_data : Chunk)
    (r : AudioRouter) : Option Chunk × AudioRouter :=
  match alookup call_id r.audio_queues with
  | none =>
    (none, { r with warnings := r.warnings ++ ["No audio queues for call " ++ call_id] })
  | some qp =>
    let qp1 := { qp with inbound := qp.inbound ++ [audio_data] }
    let r1 := { r with audio_queues := aset call_id qp1 r.audio_queues }
    let r2 :=
      match alookup call_id r1.active_streams with
      | some si =>
        let si' := { si with last_activity := now }
        { r1 with active_streams := aset call_id si' r1.active_streams }
      | none => r1
    match qp1.outbound with
    | [] => (none, r2)
    | reply :: rest =>
      let qp2 := { qp1 with outbound := rest }
      (some reply, { r2 with audio_queues := aset call_id qp2 r2.audio_queues })

/-- Method `_is_stream_active`: unknown call or cleared flag → False; no inbound
activity for strictly longer than the idle timeout → warn, clear the
`active` flag and answer False; otherwise True. -/
def is_stream_active (cfg : Config) (now : Nat) (call_id : String)
    (r : AudioRouter) : Bool × AudioRouter :=
  match alookup call_id r.active_streams with
  | none => (false, r)
  | some si =>
    if !si.active then (false, r)
    else if now - si.last_activity > cfg.timeout_value then
      let si' := { si with active := false }
      (false,
       { r with
         active_streams := aset call_id si' r.active_streams
         warnings :=
           r.warnings ++ ["Audio stream for call " ++ call_id ++ " timed out due to inactivity"] })
    else (true, r)

/-- Outcome of one iteration of the worker's `while` loop: either the
guard failed and the thread exits, or the body ran and the loop
continues with the next chunk. -/
inductive WorkerStep where
  | exited
  | looped
deriving Repr, DecidableEq

/-- One iteration of `_process_audio_stream`'s loop for `call_id`:
check `_is_stream_active`; on True, dequeue the next inbound chunk
(timeout 0.5 s — an empty queue is `queue.Empty`, passed over) and run
the pipeline on it; ANY exception in the body is caught, logged to
`errors`, and the loop continues. -/
def worker_iteration (cfg : Config) (sp : Option FileSpeech) (now : Nat)
    (call_id : String) (r : AudioRouter) : WorkerStep × AudioRouter :=
  match is_stream_active cfg now call_id r with
  | (false, r1) => (.exited, r1)
  | (true, r1) =>
    match alookup call_id r1.audio_queues with
    | none =>
      -- `self.audio_queues[call_id]` raised; caught by the body's except
      (.looped, { r1 with errors :=
        r1.errors ++ ["Error processing audio for call " ++ call_id] })
    | some qp =>
      match qp.inbound with
      | [] => (.looped, r1)
      | chunk :: rest =>
        let qp1 := { qp with inbound := rest }
        let r2 := { r1 with audio_queues := aset call_id qp1 r1.audio_queues }
        match sp with
        | none => (.looped, r2)
        | some sp =>
          match sp.process_audio chunk with
          | .error _ =>
            (.looped, { r2 with errors :=
              r2.errors ++ ["Error processing audio for call " ++ call_id] })
          | .ok text =>
            if text = "" then (.looped, r2)
            else
              match sp.text_to_speech text with
              | .error _ =>
                (.looped, { r2 with errors :=
                  r2.errors ++ ["Error processing audio for call " ++ call_id] })
              | .ok reply =>
                let qp2 := { qp1 with outbound := qp1.outbound ++ [reply] }
                (.looped, { r2 with audio_queues := aset call_id qp2 r2.audio_queues })

end SpeakWise.SrcTelephony

namespace SpeakWise.Handler

/-!
Model of `src/src/integrations/telephony/call_handler.py`'s `CallHandler`.
The handler holds the `AudioRouter` whose operation set it invokes
(`register_call` / `unregister_call` / `queue_outgoing_audio` /
`get_outgoing_audio` / `process_incoming_audio`), i.e. the shared-queue
router of `src/integrations/telephony/audio_router.py`.

Elisions, each claim-irrelevant:
  * the handler is the instance built WITHOUT a `repository`, so every
    `if self.repository:` block is skipped;
  * the `Session` object stored next to `session_id` is opaque and unused
    by any modelled operation, so only `session_id` is kept;
  * the call's `metadata` dict is consulted only via
    `metadata.get("service", "General")`, so it is kept as the optional
    `service` value;
  * `uuid.uuid4()` is a fresh-name source, modelled by the counter
    `next_uuid`;
  * `_update_call_analytics` posts its record from a fire-and-forget
    background thread and swallows delivery failures; the model appends
    the record to `analytics` (the emitted-events trace);
  * the `telephony_adapter` is passed in as the function `adapter_end`
    (provider hangup), returning `Except` like any fallible external call.
-/

open SpeakWise
open SpeakWise.RootTelephony hiding SpeechProcessor CallInfo init

/-- The speech processor as consumed by `_handle_call_answered`:
`synthesize` returns the welcome audio, or `None`. -/
structure HandlerSpeech where
  synthesize : String → Option Chunk

/-- Entry of `self.active_calls`: the per-call dict built by
`process_inbound_call` / `initiate_outbound_call` and mutated by the
event handlers. -/
structure CallInfo where
  phone_number : String
  direction : String
  start_time : Nat
  status : String
  session_id : String
  service : Option String
  end_time : Option Nat
deriving Repr, DecidableEq

/-- One record posted to the analytics endpoint by
`_update_call_analytics`. -/
structure AnalyticsRecord where
  call_id : String
  phone : String
  status : String
  timestamp : Nat
  service : String
  duration : Nat
deriving Repr, DecidableEq

/-- State of the `CallHandler`. -/
structure CallHandler where
  active_calls : List (String × CallInfo)
  audio_router : RootTelephony.AudioRouter
  speech_processor : Option HandlerSpeech
  analytics : List AnalyticsRecord
  next_uuid : Nat

/-- The normalized webhook payload as read by `handle_call_event`
(`event_data.get(...)` on each key). -/
structure EventData where
  call_id : Option String
  event : Option String
  direction : Option String
  from_number : Option String
  service : Option String

/-- The `{status, message}` dict a webhook handler returns. -/
structure WebhookResponse where
  status : String
  message : String
deriving Repr, DecidableEq

/-- Method `_update_call_analytics`: build the record and post it asynchronously
(fire-and-forget; failures are swallowed inside the background thread). -/
def update_call_analytics (now : Nat) (call_id phone status service : String)
    (duration : Nat) (h : CallHandler) : CallHandler :=
  let record : AnalyticsRecord :=
    { call_id := call_id, phone := phone, status := status,
      timestamp := now, service := service, duration := duration }
  { h with analytics := h.analytics ++ [record] }

/-- Method `process_inbound_call`: create the session, store the call as
`initiated`, and register it with the audio router. -/
def process_inbound_call (now : Nat) (call_id phone_number : String)
    (service : Option String) (h : CallHandler) : CallHandler :=
  let session_id := "session-" ++ toString h.next_uuid
  let info : CallInfo :=
    { phone_number := phone_number, direction := "inbound", start_time := now,
      status := "initiated", session_id := session_id, service := service,
      end_time := none }
  { h with
    active_calls := aset call_id info h.active_calls
    audio_router := RootTelephony.register_call now call_id h.audio_router
    next_uuid := h.next_uuid + 1 }

/-- Method `_handle_call_answered`: for a known call with a speech processor,
synthesize the direction-specific welcome text and, when the synthesis
yields truthy (non-empty) audio, queue it on the router's outbound path
for this call. -/
def handle_call_answered (call_id : String) (h : CallHandler) : CallHandler :=
  match alookup call_id h.active_calls with
  | none => h
  | some info =>
    match h.speech_processor with
    | none => h
    | some sp =>
      let welcome_text :=
        if info.direction = "inbound" then
          "Thank you for calling SpeakWise. How can I assist you today?"
        else
          "Hello, this is SpeakWise calling. How can I assist you today?"
      match sp.synthesize welcome_text with
      | none => h
      | some welcome_audio =>
        if welcome_audio ≠ [] then
          { h with audio_router :=
              queue_outgoing_audio call_id welcome_audio h.audio_router }
        else h

/-- The value `end_call` returns when it does not raise: either the
`{"status": "error", "message": "Unknown call ID"}` dict, or whatever the
provider adapter's hangup returned. -/
inductive EndCallValue where
  | unknown_call
  | adapter (result : String)
deriving Repr, DecidableEq

/-- Method `end_call`: unknown call → warn and return the error dict.  Otherwise
hang up via the provider adapter; on success, mark the call completed,
unregister its audio context and remove it; on an adapter exception,
still unregister the audio context and remove the call, then re-raise.
`adapter_end` is `self.telephony_adapter.end_call`. -/
def end_call (adapter_end : String → Except String String) (now : Nat)
    (call_id : String) (h : CallHandler) :
    Except String EndCallValue × CallHandler :=
  match alookup call_id h.active_calls with
  | none => (.ok .unknown_call, h)
  | some info =>
    match adapter_end call_id with
    | .ok result =>
      let info' := { info with status := "completed", end_time := some now }
      let h1 := { h with active_calls := aset call_id info' h.active_calls }
      let h2 := { h1 with audio_router := unregister_call call_id h1.audio_router }
      let h3 := { h2 with active_calls := aerase call_id h2.active_calls }
      (.ok (.adapter result), h3)
    | .error e =>
      let h1 := { h with audio_router := unregister_call call_id h.audio_router }
      let h2 := { h1 with active_calls := aerase call_id h1.active_calls }
      (.error e, h2)

/-- Method `handle_call_event`: the state machine's sole webhook entry point. -/
def handle_call_event (now : Nat) (ev : EventData) (h : CallHandler) :
    WebhookResponse × CallHandler :=
  match ev.call_id, ev.event with
  | some call_id, some event_type =>
    let success : WebhookResponse :=
      { status := "success",
        message := "Processed " ++ event_type ++ " event for call " ++ call_id }
    if event_type = "call.initiated" then
      let phone_number := ev.from_number.getD "unknown"
      let h1 :=
        if ev.direction = some "inbound" then
          process_inbound_call now call_id phone_number none h
        else h
      let h2 :=
        update_call_analytics now call_id phone_number "In Progress"
          (ev.service.getD "General") 0 h1
      (success, h2)
    else if event_type = "call.answered" then
      match alookup call_id h.active_calls with
      | none => (success, h)
      | some info =>
        let info' := { info with status := "in-progress" }
        let h1 := { h with active_calls := aset call_id info' h.active_calls }
        let h2 := handle_call_answered call_id h1
        let h3 :=
          update_call_analytics now call_id info'.phone_number "In Progress"
            (info'.service.getD "General") 0 h2
        (success, h3)
    else if event_type = "call.completed" ∨ event_type = "call.failed" then
      match alookup call_id h.active_calls with
      | none => (success, h)
      | some info =>
        let status := if event_type = "call.completed" then "Completed" else "Failed"
        let info' := { info with status := status, end_time := some now }
        let h1 := { h with active_calls := aset call_id info' h.active_calls }
        let duration_seconds := now - info.start_time
        let h2 :=
          update_call_analytics now call_id info.phone_number status
            (info.service.getD "General") duration_seconds h1
        let h3 := { h2 with audio_router := unregister_call call_id h2.audio_router }
        let h4 := { h3 with active_calls := aerase call_id h3.active_calls }
        (success, h4)
    else
      (success, h)
  | _, _ => ({ status := "error", message := "Invalid event data" }, h)

/-- Method `process_audio`: audio for an unknown call → warn and return `None`;
otherwise feed the router and poll its outbound buffer. -/
def process_audio (now : Nat) (loop_running : Bool) (call_id : String)
    (audio_data : Chunk) (h : CallHandler) : Option Chunk × CallHandler :=
  match alookup call_id h.active_calls with
  | none => (none, h)
  | some _ =>
    let router1 :=
      RootTelephony.process_incoming_audio now loop_running call_id audio_data h.audio_router
    let (reply, router2) := RootTelephony.get_outgoing_audio call_id router1
    (reply, { h with audio_router := router2 })

/-- The sanitized call-summary dict `get_call_info` builds. -/
structure CallInfoView where
  call_id : String
  phone_number : String
  direction : String
  status : String
  start_time : Nat
  session_id : String
  end_time : Option Nat
deriving Repr, DecidableEq

/-- Method `get_call_info`: `None` for an unknown call, the sanitized summary
otherwise. -/
def get_call_info (call_id : String) (h : CallHandler) : Option CallInfoView :=
  match alookup call_id h.active_calls with
  | none => none
  | some info =>
    some
      { call_id := call_id, phone_number := info.phone_number,
        direction := info.direction, status := info.status,
        start_time := info.start_time, session_id := info.session_id,
        end_time := info.end_time }

end SpeakWise.Handler

namespace SpeakWise

open SpeakWise.SrcTelephony

/-- After `unregister_call` the shared-queue router has no entry for the
call, whether or not it was registered. -/
theorem RootTelephony.alookup_unregister_self (call_id : String)
    (r : RootTelephony.AudioRouter) :
    alookup call_id (RootTelephony.unregister_call call_id r).active_calls = none := by
  unfold RootTelephony.unregister_call
  cases hl : alookup call_id r.active_calls <;> simp [hl, alookup_aerase]

/-- C8: `route_audio` for a `call_id` that is not registered with the
per-call Audio Router returns no audio response, appends a warning to the
log, leaves the rest of the state unchanged, and (being a total function)
never raises to its caller. -/
theorem C8_route_audio_unknown_benign
    (now : Nat) (call_id : String) (chunk : Chunk)
    (r : SrcTelephony.AudioRouter)
    (hq : alookup call_id r.audio_queues = none) :
    route_audio now call_id chunk r =
      (none, { r with warnings := r.warnings ++ ["No audio queues for call " ++ call_id] }) := by
  simp [route_audio, hq]

/-- C8 witness: the freshly initialized router knows no call `c1`. -/
theorem C8_route_audio_unknown_benign_witness :
    alookup "c1" SrcTelephony.init.audio_queues = none ∧
    route_audio 5 "c1" [7, 7] SrcTelephony.init =
      (none, { SrcTelephony.init with
                 warnings := SrcTelephony.init.warnings ++ ["No audio queues for call " ++ "c1"] }) :=
  ⟨rfl, C8_route_audio_unknown_benign 5 "c1" [7, 7] SrcTelephony.init rfl⟩

/-- C6: if a registered call has received no inbound chunk for strictly
longer than the configured idle timeout, the idle check clears its
`active` flag and the worker loop exits; the timeout defaults to 30
seconds when unconfigured. -/
theorem C6_idle_timeout_retires_worker
    (cfg : Config) (sp : Option FileSpeech) (now : Nat) (call_id : String)
    (r : SrcTelephony.AudioRouter) (si : StreamInfo)
    (hs : alookup call_id r.active_streams = some si)
    (hactive : si.active = true)
    (hidle : now - si.last_activity > cfg.timeout_value) :
    (is_stream_active cfg now call_id r).1 = false ∧
    alookup call_id ((is_stream_active cfg now call_id r).2).active_streams
      = some { si with active := false } ∧
    (worker_iteration cfg sp now call_id r).1 = .exited ∧
    alookup call_id ((worker_iteration cfg sp now call_id r).2).active_streams
      = some { si with active := false } ∧
    Config.timeout_value { audio_timeout := none } = 30 := by
  have hlt : cfg.timeout_value < now - si.last_activity := hidle
  refine ⟨?_, ?_, ?_, ?_, rfl⟩ <;>
    simp [is_stream_active, worker_iteration, hs, hactive, hlt, alookup_aset]

/-- C6 witness: call `c1` registered at time 0, checked at time 40 with an
unconfigured (30-second) timeout. -/
theorem C6_idle_timeout_retires_worker_witness :
    alookup "c1" (SrcTelephony.register_call 0 "c1" SrcTelephony.init).active_streams =
      some { thread_id := 2, active := true, last_activity := 0 } ∧
    (40 : Nat) - 0 > Config.timeout_value { audio_timeout := none } ∧
    (worker_iteration { audio_timeout := none } none 40 "c1"
        (SrcTelephony.register_call 0 "c1" SrcTelephony.init)).1 = .exited := by
  refine ⟨rfl, by decide, ?_⟩
  exact (C6_idle_timeout_retires_worker { audio_timeout := none } none 40 "c1"
    (SrcTelephony.register_call 0 "c1" SrcTelephony.init)
    { thread_id := 2, active := true, last_activity := 0 } rfl rfl (by decide)).2.2.1

/-- The ways one chunk's pipeline pass can raise inside the worker body:
the transcription stage fails, or it yields a truthy text and the
synthesis stage fails. -/
def pipeline_fails (sp : FileSpeech) (chunk : Chunk) : Prop :=
  (∃ e, sp.process_audio chunk = .error e) ∨
  (∃ text e, sp.process_audio chunk = .ok text ∧ text ≠ "" ∧
    sp.text_to_speech text = .error e)

/-- C7: a pipeline exception while processing one inbound chunk is caught
and logged inside the worker body: the loop result is `looped` (the
worker is not terminated), the failed chunk is consumed, the outbound
queue is untouched, and the stream entry is unchanged, so the worker
proceeds to the next chunk. -/
theorem C7_pipeline_error_isolated
    (cfg : Config) (sp : FileSpeech) (now : Nat) (call_id : String)
    (r : SrcTelephony.AudioRouter) (si : StreamInfo) (qp : QueuePair)
    (chunk : Chunk) (rest : List Chunk)
    (hs : alookup call_id r.active_streams = some si)
    (hactive : si.active = true)
    (hfresh : ¬ now - si.last_activity > cfg.timeout_value)
    (hq : alookup call_id r.audio_queues = some qp)
    (hin : qp.inbound = chunk :: rest)
    (hfail : pipeline_fails sp chunk) :
    (worker_iteration cfg (some sp) now call_id r).1 = .looped ∧
    ((worker_iteration cfg (some sp) now call_id r).2).errors
      = r.errors ++ ["Error processing audio for call " ++ call_id] ∧
    alookup call_id ((worker_iteration cfg (some sp) now call_id r).2).audio_queues
      = some { qp with inbound := rest } ∧
    alookup call_id ((worker_iteration cfg (some sp) now call_id r).2).active_streams
      = some si := by
  rcases hfail with ⟨e, he⟩ | ⟨text, e, hok, hne, he⟩
  · simp [worker_iteration, is_stream_active, hs, hactive, hfresh, hq, hin, he,
      alookup_aset]
  · simp [worker_iteration, is_stream_active, hs, hactive, hfresh, hq, hin, hok,
      hne, he, alookup_aset]

/-- C7 witness: a pipeline whose transcription always raises, on a
registered call with one queued chunk. -/
theorem C7_pipeline_error_isolated_witness :
    pipeline_fails
      { process_audio := fun _ => .error "boom", text_to_speech := fun t => .ok [t.length] }
      [9] ∧
    (worker_iteration { audio_timeout := none }
        (some { process_audio := fun _ => .error "boom",
                text_to_speech := fun t => .ok [t.length] })
        1 "c1"
        (route_audio 0 "c1" [9]
          (SrcTelephony.register_call 0 "c1" SrcTelephony.init)).2).1 = .looped := by
  have hfail : pipeline_fails
      { process_audio := fun _ => .error "boom", text_to_speech := fun t => .ok [t.length] }
      [9] := Or.inl ⟨"boom", rfl⟩
  refine ⟨hfail, ?_⟩
  exact (C7_pipeline_error_isolated { audio_timeout := none }
    { process_audio := fun _ => .error "boom", text_to_speech := fun t => .ok [t.length] }
    1 "c1"
    (route_audio 0 "c1" [9] (SrcTelephony.register_call 0 "c1" SrcTelephony.init)).2
    { thread_id := 2, active := true, last_activity := 0 }
    { inbound_id := 0, outbound_id := 1, inbound := [[9]], outbound := [] }
    [9] []
    rfl rfl (by decide) rfl rfl hfail).1

end SpeakWise

namespace SpeakWise

/-- Folding `queue_outgoing_audio` over a list of chunks appends their
concatenation to the call's output buffer. -/
theorem RootTelephony.queue_fold_buffer (call_id : String) (cs : List Chunk)
    (r : RootTelephony.AudioRouter) (info : RootTelephony.CallInfo)
    (hs : alookup call_id r.active_calls = some info) :
    alookup call_id
        (cs.foldl (fun acc c => RootTelephony.queue_outgoing_audio call_id c acc)
          r).active_calls
      = some { info with output_buffer := info.output_buffer ++ cs.flatten } := by
  induction cs generalizing r info with
  | nil => simpa using hs
  | cons c cs ih =>
    have hstep :
        alookup call_id
            (RootTelephony.queue_outgoing_audio call_id c r).active_calls
          = some { info with output_buffer := info.output_buffer ++ c } := by
      simp [RootTelephony.queue_outgoing_audio, hs, alookup_aset]
    have := ih (RootTelephony.queue_outgoing_audio call_id c r)
      { info with output_buffer := info.output_buffer ++ c } hstep
    simpa [List.append_assoc] using this

/-- C10 counterexample: for a registered call, queueing the single (empty)
chunk `b""` and then calling `get_outgoing_audio` yields `None`, not the
concatenation of the queued bytes (`some []`): the claim as stated fails
for empty chunks. -/
theorem C10_counterexample_empty_chunk :
    (RootTelephony.get_outgoing_audio "c1"
        (RootTelephony.queue_outgoing_audio "c1" []
          (RootTelephony.register_call 0 "c1" (RootTelephony.init none)))).1 = none ∧
    (RootTelephony.get_outgoing_audio "c1"
        (RootTelephony.queue_outgoing_audio "c1" []
          (RootTelephony.register_call 0 "c1" (RootTelephony.init none)))).1
      ≠ some (List.flatten [([] : Chunk)]) := by
  constructor
  · rfl
  · intro hcontra
    simp [RootTelephony.get_outgoing_audio, RootTelephony.queue_outgoing_audio,
      RootTelephony.register_call, RootTelephony.init, aset, alookup] at hcontra

/-- C10 (amended): for a registered call whose output buffer is empty,
after `queue_outgoing_audio` enqueues chunks whose bytes concatenate to a
non-empty sequence, `get_outgoing_audio` returns exactly that
concatenation, and an immediately repeated `get_outgoing_audio` returns
`None`. -/
theorem C10_get_outgoing_audio_drains
    (call_id : String) (r : RootTelephony.AudioRouter)
    (info : RootTelephony.CallInfo) (cs : List Chunk)
    (hs : alookup call_id r.active_calls = some info)
    (hbuf : info.output_buffer = [])
    (hne : cs.flatten ≠ []) :
    (RootTelephony.get_outgoing_audio call_id
        (cs.foldl (fun acc c => RootTelephony.queue_outgoing_audio call_id c acc) r)).1
      = some cs.flatten ∧
    (RootTelephony.get_outgoing_audio call_id
        (RootTelephony.get_outgoing_audio call_id
          (cs.foldl (fun acc c => RootTelephony.queue_outgoing_audio call_id c acc) r)).2).1
      = none := by
  have hfold := RootTelephony.queue_fold_buffer call_id cs r info hs
  rw [hbuf] at hfold
  simp only [List.nil_append] at hfold
  constructor
  · simp [RootTelephony.get_outgoing_audio, hfold, hne]
  · have hafter :
        alookup call_id
            ((RootTelephony.get_outgoing_audio call_id
              (cs.foldl (fun acc c => RootTelephony.queue_outgoing_audio call_id c acc)
                r)).2).active_calls
          = some { info with output_buffer := [] } := by
      simp [RootTelephony.get_outgoing_audio, hfold, hne, alookup_aset]
    generalize
      (RootTelephony.get_outgoing_audio call_id
        (cs.foldl (fun acc c => RootTelephony.queue_outgoing_audio call_id c acc) r)).2 = r2
      at hafter ⊢
    simp [RootTelephony.get_outgoing_audio, hafter]

/-- C10 witness: call `c1` registered with an empty buffer, two chunks
queued, drained in one read, then empty. -/
theorem C10_get_outgoing_audio_drains_witness :
    alookup "c1"
        (RootTelephony.register_call 0 "c1" (RootTelephony.init none)).active_calls
      = some { input_buffer := [], output_buffer := [], last_activity := 0,
               is_active := true } ∧
    (RootTelephony.get_outgoing_audio "c1"
        ([[1, 2], [3]].foldl
          (fun acc c => RootTelephony.queue_outgoing_audio "c1" c acc)
          (RootTelephony.register_call 0 "c1" (RootTelephony.init none)))).1
      = some (List.flatten [[1, 2], [3]]) := by
  refine ⟨rfl, ?_⟩
  exact (C10_get_outgoing_audio_drains "c1"
    (RootTelephony.register_call 0 "c1" (RootTelephony.init none))
    { input_buffer := [], output_buffer := [], last_activity := 0, is_active := true }
    [[1, 2], [3]] rfl rfl (by decide)).1

end SpeakWise

namespace SpeakWise

open SpeakWise.Handler

/-- C5: `end_call` is idempotent in the sense the spec tests: after a
first `end_call` has removed the session (whether the provider hangup
succeeded or raised), a second `end_call` for the same `call_id` returns
the benign unknown-call result as a plain value — it takes the
unknown-call early return, so no exception can be raised on the second
invocation — and changes nothing. -/
theorem C5_end_call_idempotent
    (ad ad2 : String → Except String String) (now now2 : Nat) (call_id : String)
    (h : Handler.CallHandler) (info : Handler.CallInfo)
    (hs : alookup call_id h.active_calls = some info) :
    alookup call_id ((Handler.end_call ad now call_id h).2).active_calls = none ∧
    Handler.end_call ad2 now2 call_id ((Handler.end_call ad now call_id h).2)
      = (.ok .unknown_call, (Handler.end_call ad now call_id h).2) := by
  have hgone : alookup call_id ((Handler.end_call ad now call_id h).2).active_calls = none := by
    cases had : ad call_id <;>
      simp [Handler.end_call, hs, had, alookup_aerase]
  refine ⟨hgone, ?_⟩
  generalize (Handler.end_call ad now call_id h).2 = h1 at hgone ⊢
  simp [Handler.end_call, hgone]

/-- C5 witness: one active call `c1`, a succeeding adapter, two
invocations. -/
theorem C5_end_call_idempotent_witness :
    alookup "c1"
        (({ active_calls :=
              [("c1",
                { phone_number := "+250788000000", direction := "inbound",
                  start_time := 3, status := "initiated", session_id := "s0",
                  service := none, end_time := none })]
            audio_router := RootTelephony.init none
            speech_processor := none
            analytics := []
            next_uuid := 1 } : Handler.CallHandler)).active_calls
      = some { phone_number := "+250788000000", direction := "inbound",
               start_time := 3, status := "initiated", session_id := "s0",
               service := none, end_time := none } ∧
    (Handler.end_call (fun _ => .ok "hung-up") 11 "c1"
        ((Handler.end_call (fun _ => .ok "hung-up") 10 "c1"
          ({ active_calls :=
               [("c1",
                 { phone_number := "+250788000000", direction := "inbound",
                   start_time := 3, status := "initiated", session_id := "s0",
                   service := none, end_time := none })]
             audio_router := RootTelephony.init none
             speech_processor := none
             analytics := []
             next_uuid := 1 } : Handler.CallHandler)).2)).1
      = .ok .unknown_call := by
  refine ⟨rfl, ?_⟩
  have := C5_end_call_idempotent (fun _ => .ok "hung-up") (fun _ => .ok "hung-up")
    10 11 "c1"
    ({ active_calls :=
         [("c1",
           { phone_number := "+250788000000", direction := "inbound",
             start_time := 3, status := "initiated", session_id := "s0",
             service := none, end_time := none })]
       audio_router := RootTelephony.init none
       speech_processor := none
       analytics := []
       next_uuid := 1 } : Handler.CallHandler)
    { phone_number := "+250788000000", direction := "inbound",
      start_time := 3, status := "initiated", session_id := "s0",
      service := none, end_time := none } rfl
  rw [this.2]

/-- C9: when the provider hangup raised inside `end_call`, the handler
still unregisters the call's audio context and removes the call from the
active set before re-raising: the returned error is the adapter's, the
`call_id` is no longer active, the router has no context for it, and
`get_call_info` reports not-found. -/
theorem C9_end_call_failure_still_cleans_up
    (ad : String → Except String String) (now : Nat) (call_id : String)
    (h : Handler.CallHandler) (info : Handler.CallInfo) (e : String)
    (hs : alookup call_id h.active_calls = some info)
    (had : ad call_id = .error e) :
    (Handler.end_call ad now call_id h).1 = .error e ∧
    alookup call_id ((Handler.end_call ad now call_id h).2).active_calls = none ∧
    alookup call_id
        ((Handler.end_call ad now call_id h).2).audio_router.active_calls = none ∧
    Handler.get_call_info call_id (Handler.end_call ad now call_id h).2 = none := by
  have hgone : alookup call_id ((Handler.end_call ad now call_id h).2).active_calls = none := by
    simp [Handler.end_call, hs, had, alookup_aerase]
  refine ⟨?_, hgone, ?_, ?_⟩
  · simp [Handler.end_call, hs, had]
  · simp [Handler.end_call, hs, had, RootTelephony.alookup_unregister_self]
  · unfold Handler.get_call_info
    rw [hgone]

/-- C9 witness: an adapter that always raises, on one active call. -/
theorem C9_end_call_failure_still_cleans_up_witness :
    ((fun _ => .error "carrier down" : String → Except String String) "c1"
        = .error "carrier down") ∧
    Handler.get_call_info "c1"
        ((Handler.end_call (fun _ => .error "carrier down") 10 "c1"
          ({ active_calls :=
               [("c1",
                 { phone_number := "+250788000000", direction := "outbound",
                   start_time := 3, status := "in-progress", session_id := "s0",
                   service := some "Business Registration", end_time := none })]
             audio_router :=
               RootTelephony.register_call 3 "c1" (RootTelephony.init none)
             speech_processor := none
             analytics := []
             next_uuid := 1 } : Handler.CallHandler)).2)
      = none := by
  refine ⟨rfl, ?_⟩
  exact (C9_end_call_failure_still_cleans_up (fun _ => .error "carrier down") 10 "c1"
    ({ active_calls :=
         [("c1",
           { phone_number := "+250788000000", direction := "outbound",
             start_time := 3, status := "in-progress", session_id := "s0",
             service := some "Business Registration", end_time := none })]
       audio_router := RootTelephony.register_call 3 "c1" (RootTelephony.init none)
       speech_processor := none
       analytics := []
       next_uuid := 1 } : Handler.CallHandler)
    { phone_number := "+250788000000", direction := "outbound",
      start_time := 3, status := "in-progress", session_id := "s0",
      service := some "Business Registration", end_time := none }
    "carrier down" rfl rfl).2.2.2

end SpeakWise

namespace SpeakWise

open SpeakWise.Handler

/-- The direction-specific welcome text `_handle_call_answered` chooses. -/
def welcome_text_for (direction : String) : String :=
  if direction = "inbound" then
    "Thank you for calling SpeakWise. How can I assist you today?"
  else
    "Hello, this is SpeakWise calling. How can I assist you today?"

/-- C4: handling `call.answered` for an active call sets its status to
`in-progress`, requests the welcome synthesis from the speech processor,
and queues the resulting audio on the router's outbound path for this
call, so `get_outgoing_audio(call_id)` subsequently returns the welcome
chunk. -/
theorem C4_answered_sets_in_progress_and_queues_welcome
    (now : Nat) (call_id : String) (h : Handler.CallHandler)
    (info : Handler.CallInfo) (sp : HandlerSpeech)
    (rinfo : RootTelephony.CallInfo) (audio : Chunk)
    (hs : alookup call_id h.active_calls = some info)
    (hsp : h.speech_processor = some sp)
    (hr : alookup call_id h.audio_router.active_calls = some rinfo)
    (hbuf : rinfo.output_buffer = [])
    (hsynth : sp.synthesize (welcome_text_for info.direction) = some audio)
    (hne : audio ≠ []) :
    (Handler.handle_call_event now
        { call_id := some call_id, event := some "call.answered",
          direction := none, from_number := none, service := none } h).1.status
      = "success" ∧
    (alookup call_id
        ((Handler.handle_call_event now
          { call_id := some call_id, event := some "call.answered",
            direction := none, from_number := none, service := none } h).2).active_calls).map
        Handler.CallInfo.status
      = some "in-progress" ∧
    (RootTelephony.get_outgoing_audio call_id
        ((Handler.handle_call_event now
          { call_id := some call_id, event := some "call.answered",
            direction := none, from_number := none, service := none } h).2).audio_router).1
      = some audio := by
  have hne1 : ("call.answered" : String) ≠ "call.initiated" := by decide
  have hne2 : ("call.answered" : String) ≠ "call.completed" := by decide
  have hne3 : ("call.answered" : String) ≠ "call.failed" := by decide
  have hqueue :
      alookup call_id
          (RootTelephony.queue_outgoing_audio call_id audio h.audio_router).active_calls
        = some { rinfo with output_buffer := audio } := by
    simp [RootTelephony.queue_outgoing_audio, hr, alookup_aset, hbuf]
  have hsynth' : sp.synthesize
      (if info.direction = "inbound" then
        "Thank you for calling SpeakWise. How can I assist you today?"
      else
        "Hello, this is SpeakWise calling. How can I assist you today?") = some audio :=
    hsynth
  simp [Handler.handle_call_event, hne1, hne2, hne3, hs, Handler.handle_call_answered,
    alookup_aset, Handler.update_call_analytics, hsp, hsynth', hne,
    RootTelephony.get_outgoing_audio, hqueue]

end SpeakWise

namespace SpeakWise

open SpeakWise.Handler

/-- C4 witness: an inbound call `c1`, a synthesizer producing `[5, 6]`,
and a registered router context with an empty outbound buffer. -/
theorem C4_answered_sets_in_progress_and_queues_welcome_witness :
    (Handler.handle_call_event 8
        { call_id := some "c1", event := some "call.answered",
          direction := none, from_number := none, service := none }
        { active_calls :=
            [("c1",
              { phone_number := "+250788000000", direction := "inbound",
                start_time := 2, status := "initiated", session_id := "s0",
                service := none, end_time := none })]
          audio_router := RootTelephony.register_call 2 "c1" (RootTelephony.init none)
          speech_processor := some { synthesize := fun _ => some [5, 6] }
          analytics := []
          next_uuid := 1 }).1.status
      = "success" ∧
    (RootTelephony.get_outgoing_audio "c1"
        ((Handler.handle_call_event 8
          { call_id := some "c1", event := some "call.answered",
            direction := none, from_number := none, service := none }
          { active_calls :=
              [("c1",
                { phone_number := "+250788000000", direction := "inbound",
                  start_time := 2, status := "initiated", session_id := "s0",
                  service := none, end_time := none })]
            audio_router := RootTelephony.register_call 2 "c1" (RootTelephony.init none)
            speech_processor := some { synthesize := fun _ => some [5, 6] }
            analytics := []
            next_uuid := 1 }).2).audio_router).1
      = some [5, 6] := by
  have main := C4_answered_sets_in_progress_and_queues_welcome 8 "c1"
    { active_calls :=
        [("c1",
          { phone_number := "+250788000000", direction := "inbound",
            start_time := 2, status := "initiated", session_id := "s0",
            service := none, end_time := none })]
      audio_router := RootTelephony.register_call 2 "c1" (RootTelephony.init none)
      speech_processor := some { synthesize := fun _ => some [5, 6] }
      analytics := []
      next_uuid := 1 }
    { phone_number := "+250788000000", direction := "inbound",
      start_time := 2, status := "initiated", session_id := "s0",
      service := none, end_time := none }
    { synthesize := fun _ => some [5, 6] }
    { input_buffer := [], output_buffer := [], last_activity := 2, is_active := true }
    [5, 6] rfl rfl rfl rfl rfl (by decide)
  exact ⟨main.1, main.2.2⟩

/-- C2 counterexample: a `call.initiated` webhook whose `call_id` is not
in the active set is acknowledged with success but CHANGES the registry —
`process_inbound_call` adds a brand-new session for it — so the claim's
"leaves the active-call set unchanged for every webhook event" is false. -/
theorem C2_counterexample_initiated_creates_session :
    (Handler.handle_call_event 7
        { call_id := some "x", event := some "call.initiated",
          direction := some "inbound", from_number := some "+250788000000",
          service := none }
        { active_calls := [], audio_router := RootTelephony.init none,
          speech_processor := none, analytics := [], next_uuid := 0 }).1.status
      = "success" ∧
    (alookup "x"
        ((Handler.handle_call_event 7
          { call_id := some "x", event := some "call.initiated",
            direction := some "inbound", from_number := some "+250788000000",
            service := none }
          { active_calls := [], audio_router := RootTelephony.init none,
            speech_processor := none, analytics := [], next_uuid := 0 }).2).active_calls).isSome
      = true := by
  constructor <;> rfl

/-- C2 (amended): for every webhook event other than `call.initiated`
(i.e. `call.answered`, `call.completed`, `call.failed`, or any
unrecognized type) whose `call_id` is not in the active set,
`handle_call_event` returns the success acknowledgement and leaves the
handler state — active calls, router, analytics — exactly unchanged; as a
total function it never raises. -/
theorem C2_unknown_call_event_is_noop
    (now : Nat) (ev : Handler.EventData) (h : Handler.CallHandler)
    (call_id event_type : String)
    (hcid : ev.call_id = some call_id)
    (het : ev.event = some event_type)
    (hunknown : alookup call_id h.active_calls = none)
    (hni : event_type ≠ "call.initiated") :
    Handler.handle_call_event now ev h =
      ({ status := "success",
         message := "Processed " ++ event_type ++ " event for call " ++ call_id }, h) := by
  simp only [Handler.handle_call_event, hcid, het]
  rw [if_neg hni]
  by_cases h2 : event_type = "call.answered"
  · simp [h2, hunknown]
  · rw [if_neg h2]
    by_cases h3 : event_type = "call.completed" ∨ event_type = "call.failed"
    · rw [if_pos h3]
      simp [hunknown]
    · rw [if_neg h3]

/-- C2 witness: a duplicate `call.completed` for a call that was already
removed. -/
theorem C2_unknown_call_event_is_noop_witness :
    alookup "gone"
        (({ active_calls := [], audio_router := RootTelephony.init none,
            speech_processor := none, analytics := [],
            next_uuid := 4 } : Handler.CallHandler)).active_calls = none ∧
    Handler.handle_call_event 9
        { call_id := some "gone", event := some "call.completed",
          direction := none, from_number := none, service := none }
        { active_calls := [], audio_router := RootTelephony.init none,
          speech_processor := none, analytics := [], next_uuid := 4 }
      = ({ status := "success",
           message := "Processed " ++ "call.completed" ++ " event for call " ++ "gone" },
         { active_calls := [], audio_router := RootTelephony.init none,
           speech_processor := none, analytics := [], next_uuid := 4 }) := by
  refine ⟨rfl, ?_⟩
  exact C2_unknown_call_event_is_noop 9
    { call_id := some "gone", event := some "call.completed",
      direction := none, from_number := none, service := none }
    { active_calls := [], audio_router := RootTelephony.init none,
      speech_processor := none, analytics := [], next_uuid := 4 }
    "gone" "call.completed" rfl rfl rfl (by decide)

/-- C1 counterexample: an explicit `end_call` on an active call succeeds,
removes the session — and emits NO analytics record (its analytics trace
stays empty), contradicting the claim that explicit `end_call` emits a
duration-carrying analytics record. -/
theorem C1_counterexample_end_call_emits_no_analytics :
    (Handler.end_call (fun _ => .ok "hung-up") 10 "c9"
        { active_calls :=
            [("c9",
              { phone_number := "+250788000000", direction := "inbound",
                start_time := 3, status := "in-progress", session_id := "s0",
                service := none, end_time := none })],
          audio_router := RootTelephony.init none, speech_processor := none,
          analytics := [], next_uuid := 1 }).1 = .ok (.adapter "hung-up") ∧
    ((Handler.end_call (fun _ => .ok "hung-up") 10 "c9"
        { active_calls :=
            [("c9",
              { phone_number := "+250788000000", direction := "inbound",
                start_time := 3, status := "in-progress", session_id := "s0",
                service := none, end_time := none })],
          audio_router := RootTelephony.init none, speech_processor := none,
          analytics := [], next_uuid := 1 }).2).analytics = [] ∧
    alookup "c9"
        ((Handler.end_call (fun _ => .ok "hung-up") 10 "c9"
          { active_calls :=
              [("c9",
                { phone_number := "+250788000000", direction := "inbound",
                  start_time := 3, status := "in-progress", session_id := "s0",
                  service := none, end_time := none })],
            audio_router := RootTelephony.init none, speech_processor := none,
            analytics := [], next_uuid := 1 }).2).active_calls = none := by
  refine ⟨rfl, rfl, rfl⟩

/-- C1 (amended): on a terminal webhook event (`call.completed` /
`call.failed`) for an active call, the registry computes
`duration = end_time - start_time` in whole seconds, emits one analytics
record carrying call_id/phone/status/service/duration, unregisters the
Audio Router context and removes the CallSession; an explicit `end_call`
likewise unregisters the context and removes the session, but emits no
analytics record. -/
theorem C1_terminal_event_analytics_and_cleanup
    (now : Nat) (ev : Handler.EventData) (h : Handler.CallHandler)
    (info : Handler.CallInfo) (call_id event_type result : String)
    (ad : String → Except String String)
    (hcid : ev.call_id = some call_id)
    (het : ev.event = some event_type)
    (hterm : event_type = "call.completed" ∨ event_type = "call.failed")
    (hs : alookup call_id h.active_calls = some info)
    (had : ad call_id = .ok result) :
    (Handler.handle_call_event now ev h).1.status = "success" ∧
    ((Handler.handle_call_event now ev h).2).analytics
      = h.analytics ++
        [{ call_id := call_id, phone := info.phone_number,
           status := if event_type = "call.completed" then "Completed" else "Failed",
           timestamp := now, service := info.service.getD "General",
           duration := now - info.start_time }] ∧
    alookup call_id ((Handler.handle_call_event now ev h).2).active_calls = none ∧
    alookup call_id
        ((Handler.handle_call_event now ev h).2).audio_router.active_calls = none ∧
    ((Handler.end_call ad now call_id h).2).analytics = h.analytics ∧
    alookup call_id ((Handler.end_call ad now call_id h).2).active_calls = none ∧
    alookup call_id
        ((Handler.end_call ad now call_id h).2).audio_router.active_calls = none := by
  have hne1 : ("call.completed" : String) ≠ "call.initiated" := by decide
  have hne2 : ("call.completed" : String) ≠ "call.answered" := by decide
  have hne3 : ("call.failed" : String) ≠ "call.initiated" := by decide
  have hne4 : ("call.failed" : String) ≠ "call.answered" := by decide
  rcases hterm with h1 | h1 <;> subst h1 <;>
    refine ⟨?_, ?_, ?_, ?_, ?_, ?_, ?_⟩ <;>
      simp [Handler.handle_call_event, hcid, het, hs, hne1, hne2, hne3, hne4,
        Handler.update_call_analytics, alookup_aerase, alookup_aset,
        RootTelephony.alookup_unregister_self, Handler.end_call, had]

/-- C1 witness: a completed webhook at time 10 for a call started at
time 3 emits one record with duration 7; an explicit `end_call` on the
same state emits nothing. -/
theorem C1_terminal_event_analytics_and_cleanup_witness :
    ((Handler.handle_call_event 10
        { call_id := some "c1", event := some "call.completed",
          direction := none, from_number := none, service := none }
        { active_calls :=
            [("c1",
              { phone_number := "+250788000000", direction := "inbound",
                start_time := 3, status := "in-progress", session_id := "s0",
                service := some "Business Registration", end_time := none })],
          audio_router := RootTelephony.register_call 3 "c1" (RootTelephony.init none),
          speech_processor := none, analytics := [], next_uuid := 1 }).2).analytics
      = [{ call_id := "c1", phone := "+250788000000",
           status := if "call.completed" = "call.completed" then "Completed" else "Failed",
           timestamp := 10, service := (some "Business Registration").getD "General",
           duration := 10 - 3 }] ∧
    ((Handler.end_call (fun _ => .ok "done") 10 "c1"
        { active_calls :=
            [("c1",
              { phone_number := "+250788000000", direction := "inbound",
                start_time := 3, status := "in-progress", session_id := "s0",
                service := some "Business Registration", end_time := none })],
          audio_router := RootTelephony.register_call 3 "c1" (RootTelephony.init none),
          speech_processor := none, analytics := [], next_uuid := 1 }).2).analytics
      = [] := by
  have main := C1_terminal_event_analytics_and_cleanup 10
    { call_id := some "c1", event := some "call.completed",
      direction := none, from_number := none, service := none }
    { active_calls :=
        [("c1",
          { phone_number := "+250788000000", direction := "inbound",
            start_time := 3, status := "in-progress", session_id := "s0",
            service := some "Business Registration", end_time := none })],
      audio_router := RootTelephony.register_call 3 "c1" (RootTelephony.init none),
      speech_processor := none, analytics := [], next_uuid := 1 }
    { phone_number := "+250788000000", direction := "inbound",
      start_time := 3, status := "in-progress", session_id := "s0",
      service := some "Business Registration", end_time := none }
    "c1" "call.completed" "done" (fun _ => .ok "done")
    rfl rfl (Or.inl rfl) rfl rfl
  exact ⟨main.2.1, main.2.2.2.2.1⟩

end SpeakWise

namespace SpeakWise.SrcTelephony

open SpeakWise

/-- The queue-pair identity owned by a call: the object identities of its
inbound and outbound `queue.Queue`. -/
def qids (r : AudioRouter) (c : String) : Option (Nat × Nat) :=
  (alookup c r.audio_queues).map fun qp => (qp.inbound_id, qp.outbound_id)

/-- The identity of the worker thread bound to a call. -/
def tid (r : AudioRouter) (c : String) : Option Nat :=
  (alookup c r.active_streams).map StreamInfo.thread_id

/-- Ownership invariant of the per-call router: all allocated identities
are below the allocator, every stream owns a queue pair and vice versa,
the two queues of one call are distinct objects, and queues and workers
are never shared between two distinct calls. -/
structure Wf (r : AudioRouter) : Prop where
  qbound : ∀ c p, qids r c = some p → p.1 < r.next_id ∧ p.2 < r.next_id
  tbound : ∀ c t, tid r c = some t → t < r.next_id
  own : ∀ c, (tid r c).isSome = (qids r c).isSome
  pair_ne : ∀ c p, qids r c = some p → p.1 ≠ p.2
  qsep : ∀ c1 c2 p1 p2, c1 ≠ c2 → qids r c1 = some p1 → qids r c2 = some p2 →
    p1.1 ≠ p2.1 ∧ p1.1 ≠ p2.2 ∧ p1.2 ≠ p2.1 ∧ p1.2 ≠ p2.2
  tsep : ∀ c1 c2 t1 t2, c1 ≠ c2 → tid r c1 = some t1 → tid r c2 = some t2 → t1 ≠ t2

/-- An operation that moves no queue pair, rebinds no worker and
allocates nothing preserves the ownership invariant. -/
theorem Wf_congr {r r' : AudioRouter}
    (hq : ∀ c, qids r' c = qids r c) (ht : ∀ c, tid r' c = tid r c)
    (hn : r'.next_id = r.next_id) (w : Wf r) : Wf r' := by
  constructor
  · intro c p hp
    rw [hq] at hp
    rw [hn]
    exact w.qbound c p hp
  · intro c t hc
    rw [ht] at hc
    rw [hn]
    exact w.tbound c t hc
  · intro c
    rw [hq, ht]
    exact w.own c
  · intro c p hp
    rw [hq] at hp
    exact w.pair_ne c p hp
  · intro c1 c2 p1 p2 hne h1 h2
    rw [hq] at h1 h2
    exact w.qsep c1 c2 p1 p2 hne h1 h2
  · intro c1 c2 t1 t2 hne h1 h2
    rw [ht] at h1 h2
    exact w.tsep c1 c2 t1 t2 hne h1 h2

/-- The operation `route_audio` touches only the contents of the target call's own
queues: every identity, every worker binding and the allocator are
unchanged. -/
theorem route_audio_preserves (now : Nat) (cid : String) (ch : Chunk)
    (r : AudioRouter) :
    (∀ c, qids (route_audio now cid ch r).2 c = qids r c) ∧
    (∀ c, tid (route_audio now cid ch r).2 c = tid r c) ∧
    (route_audio now cid ch r).2.next_id = r.next_id := by
  unfold route_audio
  cases hq : alookup cid r.audio_queues with
  | none => exact ⟨fun c => rfl, fun c => rfl, rfl⟩
  | some qp =>
    obtain ⟨iid, oid, inb, outb⟩ := qp
    refine ⟨?_, ?_, ?_⟩
    · intro c
      by_cases hc : c = cid
      · subst hc
        cases hs : alookup c r.active_streams <;>
          cases outb <;>
            simp [qids, alookup_aset, hq, hs]
      · cases hs : alookup cid r.active_streams <;>
          cases outb <;>
            simp [qids, alookup_aset, hc, hs]
    · intro c
      by_cases hc : c = cid
      · subst hc
        cases hs : alookup c r.active_streams <;>
          cases outb <;>
            simp [tid, alookup_aset, hs]
      · cases hs : alookup cid r.active_streams <;>
          cases outb <;>
            simp [tid, alookup_aset, hc, hs]
    · cases hs : alookup cid r.active_streams <;> cases outb <;> simp [hs]

/-- The idle check touches only the target call's `active` flag. -/
theorem is_stream_active_preserves (cfg : Config) (now : Nat) (cid : String)
    (r : AudioRouter) :
    (∀ c, qids (is_stream_active cfg now cid r).2 c = qids r c) ∧
    (∀ c, tid (is_stream_active cfg now cid r).2 c = tid r c) ∧
    (is_stream_active cfg now cid r).2.next_id = r.next_id := by
  unfold is_stream_active
  cases hs : alookup cid r.active_streams with
  | none => exact ⟨fun c => rfl, fun c => rfl, rfl⟩
  | some si =>
    by_cases ha : si.active
    · by_cases ht : now - si.last_activity > cfg.timeout_value
      · refine ⟨?_, ?_, ?_⟩
        · intro c
          simp [qids, ha, ht]
        · intro c
          by_cases hc : c = cid
          · subst hc
            simp [tid, ha, ht, alookup_aset, hs]
          · simp [tid, ha, ht, alookup_aset, hc]
        · simp [ha, ht]
      · exact ⟨fun c => by simp [qids, ha, ht], fun c => by simp [tid, ha, ht],
          by simp [ha, ht]⟩
    · simp only [Bool.not_eq_true] at ha
      exact ⟨fun c => by simp [qids, ha], fun c => by simp [tid, ha], by simp [ha]⟩

/-- One worker iteration touches only the contents of its own call's
queues and the error log: identities, worker bindings and the allocator
are unchanged. -/
theorem worker_iteration_preserves (cfg : Config) (sp : Option FileSpeech)
    (now : Nat) (cid : String) (r : AudioRouter) :
    (∀ c, qids (worker_iteration cfg sp now cid r).2 c = qids r c) ∧
    (∀ c, tid (worker_iteration cfg sp now cid r).2 c = tid r c) ∧
    (worker_iteration cfg sp now cid r).2.next_id = r.next_id := by
  obtain ⟨hq1, ht1, hn1⟩ := is_stream_active_preserves cfg now cid r
  unfold worker_iteration
  rcases hsa : is_stream_active cfg now cid r with ⟨b, r1⟩
  rw [hsa] at hq1 ht1 hn1
  cases b with
  | false => exact ⟨hq1, ht1, hn1⟩
  | true =>
    refine ⟨?_, ?_, ?_⟩
    · intro c
      rw [← hq1 c]
      by_cases hc : c = cid
      · subst hc
        cases hq : alookup c r1.audio_queues with
        | none => simp [qids, tid, hq]
        | some qp =>
          obtain ⟨iid, oid, inb, outb⟩ := qp
          cases inb with
          | nil => simp [qids, tid, hq]
          | cons chunk rest =>
            cases sp with
            | none => simp [qids, hq, alookup_aset]
            | some sp =>
              cases hpa : sp.process_audio chunk with
              | error e => simp [qids, hq, hpa, alookup_aset]
              | ok text =>
                by_cases htx : text = ""
                · simp [qids, hq, hpa, htx, alookup_aset]
                · cases hts : sp.text_to_speech text with
                  | error e => simp [qids, hq, hpa, htx, hts, alookup_aset]
                  | ok reply => simp [qids, hq, hpa, htx, hts, alookup_aset]
      · cases hq : alookup cid r1.audio_queues with
        | none => simp [qids, tid, hq]
        | some qp =>
          obtain ⟨iid, oid, inb, outb⟩ := qp
          cases inb with
          | nil => simp [qids, tid, hq]
          | cons chunk rest =>
            cases sp with
            | none => simp [qids, hq, alookup_aset, hc]
            | some sp =>
              cases hpa : sp.process_audio chunk with
              | error e => simp [qids, hq, hpa, alookup_aset, hc]
              | ok text =>
                by_cases htx : text = ""
                · simp [qids, hq, hpa, htx, alookup_aset, hc]
                · cases hts : sp.text_to_speech text with
                  | error e => simp [qids, hq, hpa, htx, hts, alookup_aset, hc]
                  | ok reply => simp [qids, hq, hpa, htx, hts, alookup_aset, hc]
    · intro c
      rw [← ht1 c]
      cases hq : alookup cid r1.audio_queues with
      | none => simp [qids, tid, hq]
      | some qp =>
        obtain ⟨iid, oid, inb, outb⟩ := qp
        cases inb with
        | nil => simp [qids, tid, hq]
        | cons chunk rest =>
          cases sp with
          | none => simp [tid, hq]
          | some sp =>
            cases hpa : sp.process_audio chunk with
            | error e => simp [tid, hq, hpa]
            | ok text =>
              by_cases htx : text = ""
              · simp [tid, hq, hpa, htx]
              · cases hts : sp.text_to_speech text with
                | error e => simp [tid, hq, hpa, htx, hts]
                | ok reply => simp [tid, hq, hpa, htx, hts]
    · rw [← hn1]
      cases hq : alookup cid r1.audio_queues with
      | none => simp [qids, tid, hq]
      | some qp =>
        obtain ⟨iid, oid, inb, outb⟩ := qp
        cases inb with
        | nil => simp [qids, tid, hq]
        | cons chunk rest =>
          cases sp with
          | none => simp [qids, tid, hq]
          | some sp =>
            cases hpa : sp.process_audio chunk with
            | error e => simp [hq, hpa]
            | ok text =>
              by_cases htx : text = ""
              · simp [hq, hpa, htx]
              · cases hts : sp.text_to_speech text with
                | error e => simp [hq, hpa, htx, hts]
                | ok reply => simp [hq, hpa, htx, hts]



/-- Calling `register_call` on an unknown call binds a brand-new queue pair to it. -/
theorem register_new_qids (now : Nat) (cid : String) (r : AudioRouter)
    (hs : alookup cid r.active_streams = none) (c : String) :
    qids (register_call now cid r) c
      = if c = cid then some (r.next_id, r.next_id + 1) else qids r c := by
  unfold register_call
  rw [hs]
  by_cases hc : c = cid <;> simp [qids, alookup_aset, hc]

/-- Calling `register_call` on an unknown call binds a brand-new worker to it. -/
theorem register_new_tid (now : Nat) (cid : String) (r : AudioRouter)
    (hs : alookup cid r.active_streams = none) (c : String) :
    tid (register_call now cid r) c
      = if c = cid then some (r.next_id + 2) else tid r c := by
  unfold register_call
  rw [hs]
  by_cases hc : c = cid <;> simp [tid, alookup_aset, hc]

/-- Calling `register_call` on an unknown call advances the allocator. -/
theorem register_new_next (now : Nat) (cid : String) (r : AudioRouter)
    (hs : alookup cid r.active_streams = none) :
    (register_call now cid r).next_id = r.next_id + 3 := by
  unfold register_call
  rw [hs]

/-- The operation `register_call` preserves the ownership invariant. -/
theorem Wf_register (now : Nat) (cid : String) (r : AudioRouter) (w : Wf r) :
    Wf (register_call now cid r) := by
  cases hs : alookup cid r.active_streams with
  | some si =>
    refine Wf_congr (fun c => ?_) (fun c => ?_) ?_ w <;>
      · unfold register_call
        rw [hs] <;> rfl
  | none =>
    have hq := register_new_qids now cid r hs
    have ht := register_new_tid now cid r hs
    have hn := register_new_next now cid r hs
    constructor
    · intro c p hp
      rw [hq c] at hp
      rw [hn]
      by_cases hc : c = cid
      · rw [if_pos hc] at hp
        obtain ⟨p1, p2⟩ := p
        simp only [Option.some.injEq, Prod.mk.injEq] at hp
        omega
      · rw [if_neg hc] at hp
        have := w.qbound c p hp
        omega
    · intro c t htc
      rw [ht c] at htc
      rw [hn]
      by_cases hc : c = cid
      · rw [if_pos hc] at htc
        simp only [Option.some.injEq] at htc
        omega
      · rw [if_neg hc] at htc
        have := w.tbound c t htc
        omega
    · intro c
      rw [hq c, ht c]
      by_cases hc : c = cid
      · simp [hc]
      · simp only [if_neg hc]
        exact w.own c
    · intro c p hp
      rw [hq c] at hp
      by_cases hc : c = cid
      · rw [if_pos hc] at hp
        obtain ⟨p1, p2⟩ := p
        simp only [Option.some.injEq, Prod.mk.injEq] at hp
        omega
      · rw [if_neg hc] at hp
        exact w.pair_ne c p hp
    · intro c1 c2 p1 p2 hne h1 h2
      rw [hq c1] at h1
      rw [hq c2] at h2
      by_cases hc1 : c1 = cid
      · rw [if_pos hc1] at h1
        have hc2 : ¬ c2 = cid := fun h => hne (hc1.trans h.symm)
        rw [if_neg hc2] at h2
        obtain ⟨a, b⟩ := p1
        simp only [Option.some.injEq, Prod.mk.injEq] at h1
        have hb := w.qbound c2 p2 h2
        omega
      · rw [if_neg hc1] at h1
        by_cases hc2 : c2 = cid
        · rw [if_pos hc2] at h2
          obtain ⟨a, b⟩ := p2
          simp only [Option.some.injEq, Prod.mk.injEq] at h2
          have hb := w.qbound c1 p1 h1
          omega
        · rw [if_neg hc2] at h2
          exact w.qsep c1 c2 p1 p2 hne h1 h2
    · intro c1 c2 t1 t2 hne h1 h2
      rw [ht c1] at h1
      rw [ht c2] at h2
      by_cases hc1 : c1 = cid
      · rw [if_pos hc1] at h1
        have hc2 : ¬ c2 = cid := fun h => hne (hc1.trans h.symm)
        rw [if_neg hc2] at h2
        simp only [Option.some.injEq] at h1
        have hb := w.tbound c2 t2 h2
        omega
      · rw [if_neg hc1] at h1
        by_cases hc2 : c2 = cid
        · rw [if_pos hc2] at h2
          simp only [Option.some.injEq] at h2
          have hb := w.tbound c1 t1 h1
          omega
        · rw [if_neg hc2] at h2
          exact w.tsep c1 c2 t1 t2 hne h1 h2

/-- The operation `unregister_call` preserves the ownership invariant. -/
theorem Wf_unregister (cid : String) (r : AudioRouter) (w : Wf r) :
    Wf (unregister_call cid r) := by
  cases hs : alookup cid r.active_streams with
  | none =>
    refine Wf_congr (fun c => ?_) (fun c => ?_) ?_ w <;>
      · unfold unregister_call
        rw [hs] <;> rfl
  | some si =>
    have hq : ∀ c, qids (unregister_call cid r) c
        = if c = cid then none else qids r c := by
      intro c
      unfold unregister_call
      rw [hs]
      by_cases hc : c = cid <;> simp [qids, alookup_aerase, hc]
    have ht : ∀ c, tid (unregister_call cid r) c
        = if c = cid then none else tid r c := by
      intro c
      unfold unregister_call
      rw [hs]
      by_cases hc : c = cid <;> simp [tid, alookup_aerase, hc]
    have hn : (unregister_call cid r).next_id = r.next_id := by
      unfold unregister_call
      rw [hs]
    constructor
    · intro c p hp
      rw [hq c] at hp
      rw [hn]
      by_cases hc : c = cid
      · rw [if_pos hc] at hp
        exact Option.noConfusion hp
      · rw [if_neg hc] at hp
        exact w.qbound c p hp
    · intro c t htc
      rw [ht c] at htc
      rw [hn]
      by_cases hc : c = cid
      · rw [if_pos hc] at htc
        exact Option.noConfusion htc
      · rw [if_neg hc] at htc
        exact w.tbound c t htc
    · intro c
      rw [hq c, ht c]
      by_cases hc : c = cid
      · simp [hc]
      · simp only [if_neg hc]
        exact w.own c
    · intro c p hp
      rw [hq c] at hp
      by_cases hc : c = cid
      · rw [if_pos hc] at hp
        exact Option.noConfusion hp
      · rw [if_neg hc] at hp
        exact w.pair_ne c p hp
    · intro c1 c2 p1 p2 hne h1 h2
      rw [hq c1] at h1
      rw [hq c2] at h2
      by_cases hc1 : c1 = cid
      · rw [if_pos hc1] at h1
        exact Option.noConfusion h1
      · rw [if_neg hc1] at h1
        by_cases hc2 : c2 = cid
        · rw [if_pos hc2] at h2
          exact Option.noConfusion h2
        · rw [if_neg hc2] at h2
          exact w.qsep c1 c2 p1 p2 hne h1 h2
    · intro c1 c2 t1 t2 hne h1 h2
      rw [ht c1] at h1
      rw [ht c2] at h2
      by_cases hc1 : c1 = cid
      · rw [if_pos hc1] at h1
        exact Option.noConfusion h1
      · rw [if_neg hc1] at h1
        by_cases hc2 : c2 = cid
        · rw [if_pos hc2] at h2
          exact Option.noConfusion h2
        · rw [if_neg hc2] at h2
          exact w.tsep c1 c2 t1 t2 hne h1 h2

/-- One observable operation on the per-call router. -/
inductive Step : AudioRouter → AudioRouter → Prop where
  | register (now : Nat) (call_id : String) (r : AudioRouter) :
      Step r (register_call now call_id r)
  | unregister (call_id : String) (r : AudioRouter) :
      Step r (unregister_call call_id r)
  | route (now : Nat) (call_id : String) (chunk : Chunk) (r : AudioRouter) :
      Step r (route_audio now call_id chunk r).2
  | idle (cfg : Config) (now : Nat) (call_id : String) (r : AudioRouter) :
      Step r (is_stream_active cfg now call_id r).2
  | worker (cfg : Config) (sp : Option FileSpeech) (now : Nat) (call_id : String)
      (r : AudioRouter) :
      Step r (worker_iteration cfg sp now call_id r).2

/-- States of the per-call router reachable from `__init__` by any
sequence of operations. -/
inductive Reachable : AudioRouter → Prop where
  | base : Reachable init
  | step {r r' : AudioRouter} : Reachable r → Step r r' → Reachable r'

/-- Every reachable state of the per-call router satisfies the ownership
invariant. -/
theorem Wf_reachable (r : AudioRouter) (h : Reachable r) : Wf r := by
  induction h with
  | base =>
    constructor <;> intro c <;> intros <;> simp_all [qids, tid, init, alookup]
  | step hr hstep ih =>
    cases hstep with
    | register now cid => exact Wf_register now cid _ ih
    | unregister cid => exact Wf_unregister cid _ ih
    | route now cid ch =>
      exact Wf_congr (route_audio_preserves now cid ch _).1
        (route_audio_preserves now cid ch _).2.1
        (route_audio_preserves now cid ch _).2.2 ih
    | idle cfg now cid =>
      exact Wf_congr (is_stream_active_preserves cfg now cid _).1
        (is_stream_active_preserves cfg now cid _).2.1
        (is_stream_active_preserves cfg now cid _).2.2 ih
    | worker cfg sp now cid =>
      exact Wf_congr (worker_iteration_preserves cfg sp now cid _).1
        (worker_iteration_preserves cfg sp now cid _).2.1
        (worker_iteration_preserves cfg sp now cid _).2.2 ih

/-- The operation `route_audio` for one call leaves every other call's queue entry
untouched. -/
theorem route_audio_other_queues (now : Nat) (cid : String) (ch : Chunk)
    (r : AudioRouter) (c' : String) (hne : c' ≠ cid) :
    alookup c' ((route_audio now cid ch r).2).audio_queues
      = alookup c' r.audio_queues := by
  unfold route_audio
  cases hq : alookup cid r.audio_queues with
  | none => rfl
  | some qp =>
    obtain ⟨iid, oid, inb, outb⟩ := qp
    cases hs : alookup cid r.active_streams <;>
      cases outb <;>
        simp [alookup_aset, hne, hs]

/-- The idle check never touches the queue map. -/
theorem is_stream_active_queues (cfg : Config) (now : Nat) (cid : String)
    (r : AudioRouter) :
    ((is_stream_active cfg now cid r).2).audio_queues = r.audio_queues := by
  unfold is_stream_active
  cases hs : alookup cid r.active_streams with
  | none => rfl
  | some si =>
    by_cases ha : si.active
    · by_cases hto : now - si.last_activity > cfg.timeout_value <;> simp [ha, hto]
    · simp only [Bool.not_eq_true] at ha
      simp [ha]

/-- One worker iteration for one call leaves every other call's queue
entry untouched. -/
theorem worker_iteration_other_queues (cfg : Config) (sp : Option FileSpeech)
    (now : Nat) (cid : String) (r : AudioRouter) (c' : String) (hne : c' ≠ cid) :
    alookup c' ((worker_iteration cfg sp now cid r).2).audio_queues
      = alookup c' r.audio_queues := by
  have hqe := is_stream_active_queues cfg now cid r
  unfold worker_iteration
  rcases hsa : is_stream_active cfg now cid r with ⟨b, r1⟩
  rw [hsa] at hqe
  have hqe2 : r1.audio_queues = r.audio_queues := hqe
  cases b with
  | false => exact congrArg (alookup c') hqe2
  | true =>
    cases hq : alookup cid r1.audio_queues with
    | none =>
      simp only [hq]
      exact congrArg (alookup c') hqe2
    | some qp =>
      obtain ⟨iid, oid, inb, outb⟩ := qp
      cases inb with
      | nil =>
        simp only [hq]
        exact congrArg (alookup c') hqe2
      | cons chunk rest =>
        cases sp with
        | none =>
          simp only [hq]
          simp [alookup_aset, hne, hqe2]
        | some sp =>
          cases hpa : sp.process_audio chunk with
          | error e =>
            simp only [hq, hpa]
            simp [alookup_aset, hne, hqe2]
          | ok text =>
            by_cases htx : text = ""
            · simp only [hq, hpa, htx]
              simp [alookup_aset, hne, hqe2]
            · cases hts : sp.text_to_speech text with
              | error e =>
                simp only [hq, hpa, hts]
                simp [alookup_aset, hne, hqe2, htx]
              | ok reply =>
                simp only [hq, hpa, hts]
                simp [alookup_aset, hne, hqe2, htx]

end SpeakWise.SrcTelephony

namespace SpeakWise

open SpeakWise.SrcTelephony

/-- C3 counterexample: in the `AudioRouter` of
`src/integrations/telephony/audio_router.py` — the router whose
operation set `CallHandler` invokes — inbound chunks of two distinct
registered calls land in the ONE `input_queue` allocated in `__init__`:
the inbound path is a queue shared between distinct `call_id`s, and one
`processor_running` thread serves all calls, so the claim that no queue
is ever shared and every call has its own worker is false on this
router. -/
theorem C3_counterexample_shared_input_queue :
    (RootTelephony.process_incoming_audio 2 false "b" [2]
        (RootTelephony.process_incoming_audio 1 false "a" [1]
          (RootTelephony.register_call 0 "b"
            (RootTelephony.register_call 0 "a"
              (RootTelephony.init none))))).input_queue
      = [("a", [1]), ("b", [2])] ∧
    ("a" : String) ≠ "b" := by
  exact ⟨rfl, by decide⟩

/-- C3 (amended): in the per-call `AudioRouter` of
`src/src/integrations/telephony/audio_router.py`, at every reachable
state each registered call owns its own worker thread and its own pair
of distinct inbound/outbound queues, no queue object and no worker is
shared between two distinct `call_id`s, and neither `route_audio` nor a
worker iteration for one call ever touches another call's queues.  (The
alternate `AudioRouter` in `src/integrations/telephony/audio_router.py`
violates the claim: all calls share one inbound `input_queue` and one
processor thread.) -/
theorem C3_per_call_worker_and_queue_isolation
    (r : SrcTelephony.AudioRouter) (hr : Reachable r) :
    (∀ c si, alookup c r.active_streams = some si →
      ∃ qp, alookup c r.audio_queues = some qp ∧ qp.inbound_id ≠ qp.outbound_id) ∧
    (∀ c1 c2 qp1 qp2, c1 ≠ c2 →
      alookup c1 r.audio_queues = some qp1 → alookup c2 r.audio_queues = some qp2 →
      qp1.inbound_id ≠ qp2.inbound_id ∧ qp1.inbound_id ≠ qp2.outbound_id ∧
      qp1.outbound_id ≠ qp2.inbound_id ∧ qp1.outbound_id ≠ qp2.outbound_id) ∧
    (∀ c1 c2 s1 s2, c1 ≠ c2 →
      alookup c1 r.active_streams = some s1 → alookup c2 r.active_streams = some s2 →
      s1.thread_id ≠ s2.thread_id) ∧
    (∀ now c ch c', c' ≠ c →
      alookup c' ((route_audio now c ch r).2).audio_queues
        = alookup c' r.audio_queues) ∧
    (∀ cfg sp now c c', c' ≠ c →
      alookup c' ((worker_iteration cfg sp now c r).2).audio_queues
        = alookup c' r.audio_queues) := by
  have w := Wf_reachable r hr
  refine ⟨?_, ?_, ?_, ?_, ?_⟩
  · intro c si hsi
    have h1 : (tid r c).isSome = true := by simp [tid, hsi]
    rw [w.own c] at h1
    cases hq : alookup c r.audio_queues with
    | none => simp [qids, hq] at h1
    | some qp =>
      refine ⟨qp, rfl, ?_⟩
      exact w.pair_ne c (qp.inbound_id, qp.outbound_id) (by simp [qids, hq])
  · intro c1 c2 qp1 qp2 hne h1 h2
    exact w.qsep c1 c2 (qp1.inbound_id, qp1.outbound_id) (qp2.inbound_id, qp2.outbound_id)
      hne (by simp [qids, h1]) (by simp [qids, h2])
  · intro c1 c2 s1 s2 hne h1 h2
    exact w.tsep c1 c2 s1.thread_id s2.thread_id hne
      (by simp [tid, h1]) (by simp [tid, h2])
  · intro now c ch c' hne
    exact route_audio_other_queues now c ch r c' hne
  · intro cfg sp now c c' hne
    exact worker_iteration_other_queues cfg sp now c r c' hne

/-- C3 witness: after registering calls `a` then `b` from a fresh router,
the invariant instantiates to concrete, fully distinct queue and worker
identities: `a` owns queues 0/1 and worker 2, `b` owns queues 3/4 and
worker 5. -/
theorem C3_per_call_worker_and_queue_isolation_witness :
    alookup "a"
        (SrcTelephony.register_call 0 "b"
          (SrcTelephony.register_call 0 "a" SrcTelephony.init)).audio_queues
      = some { inbound_id := 0, outbound_id := 1, inbound := [], outbound := [] } ∧
    alookup "b"
        (SrcTelephony.register_call 0 "b"
          (SrcTelephony.register_call 0 "a" SrcTelephony.init)).audio_queues
      = some { inbound_id := 3, outbound_id := 4, inbound := [], outbound := [] } ∧
    (0 : Nat) ≠ 3 ∧ (0 : Nat) ≠ 4 ∧ (1 : Nat) ≠ 3 ∧ (1 : Nat) ≠ 4 := by
  have hreach : Reachable
      (SrcTelephony.register_call 0 "b"
        (SrcTelephony.register_call 0 "a" SrcTelephony.init)) :=
    Reachable.step (Reachable.step Reachable.base (Step.register 0 "a" _))
      (Step.register 0 "b" _)
  have main := C3_per_call_worker_and_queue_isolation _ hreach
  have hsep := main.2.1 "a" "b"
    { inbound_id := 0, outbound_id := 1, inbound := [], outbound := [] }
    { inbound_id := 3, outbound_id := 4, inbound := [], outbound := [] }
    (by decide) rfl rfl
  exact ⟨rfl, rfl, hsep.1, hsep.2.1, hsep.2.2.1, hsep.2.2.2⟩

end SpeakWise
